import Mathlib

/-!
Shallow embedding of the activation-key workflow of the NSO admin console
(`src/pages/ActivationKeys.tsx` and `src/services/api.ts`), together with
theorems settling the specification's claims about it.

JavaScript strings are embedded as `String`, timestamps (millisecond values
of `Date`) as `Int`, absent/`undefined` optional values as `Option`, and a
completed HTTP round trip as `Except AxiosError response` (`.error` stands
for the promise rejecting, i.e. the `catch` branch firing; `.ok` for a 2xx
response body).  Date parsing by the browser (`new Date(string)`) is passed
in as an explicit `parse : String → Option Int` argument, `none` standing
for an Invalid Date (`NaN` timestamp); `jsDateParse` below is a concrete
such environment for the ISO `YYYY-MM-DD` form used by the form's date
input.
-/

namespace NSOAdmin

/-- Whitespace as used by JavaScript `String.prototype.trim` and the `\s`
regex class (restricted to its ASCII members, which is all the claims
exercise). -/
def jsIsSpace (c : Char) : Bool :=
  c = ' ' || c = '\t' || c = '\n' || c = '\r' || c = '\x0b' || c = '\x0c'

/-- JavaScript `String.prototype.trim`: strip leading and trailing
whitespace. -/
def jsTrim (s : String) : String :=
  String.mk (((s.data.dropWhile jsIsSpace).reverse.dropWhile jsIsSpace).reverse)

/-- Does `needle` occur as a contiguous run inside `hay`?  (JavaScript
`String.prototype.includes`, on character lists.) -/
def containsList (needle : List Char) : List Char → Bool
  | [] => needle.isEmpty
  | c :: rest => needle.isPrefixOf (c :: rest) || containsList needle rest

/-- JavaScript `hay.includes(needle)`. -/
def strIncludes (hay needle : String) : Bool :=
  containsList needle.data hay.data

/-- JavaScript `x || d` where `x` is an optional string (`undefined`/`null`
or a string): the default wins when `x` is absent or the empty string (the
only falsy string). -/
def jsOr (x : Option String) (d : String) : String :=
  match x with
  | some s => if s = "" then d else s
  | none => d

/-- JavaScript truthiness of an optional string: present and non-empty. -/
def jsTruthy (x : Option String) : Bool :=
  match x with
  | some s => s ≠ ""
  | none => false

/-- JavaScript template-literal rendering of a possibly-`undefined` string
(`` `${x}` `` prints `undefined` when `x` is absent). -/
def jsUndef (x : Option String) : String :=
  x.getD "undefined"

/-- `\S` regex class: not whitespace. -/
def jsNonSpace (c : Char) : Bool := !jsIsSpace c

/-- `/\S+@\S+\.\S+/.test(s)` from `buildErrors`
(`src/pages/ActivationKeys.tsx:127`): an unanchored search, true iff some
substring of `s` consists of one-or-more non-space characters, `@`,
one-or-more non-space characters, a literal dot, and one-or-more non-space
characters.  Equivalently (taking the single-character instantiations of
each `\S+` around the mandatory `@` and `.`): there are positions `i < j`
with `s[i] = '@'`, `s[j] = '.'`, a non-space character directly before the
`@`, only non-space characters strictly between the `@` and the `.` (at
least one), and a non-space character directly after the `.`. -/
def emailRegexTest (s : String) : Bool :=
  let cs := s.data
  let n := cs.length
  (List.range n).any fun i =>
    (List.range n).any fun j =>
      decide (1 ≤ i) && decide (i + 2 ≤ j) && decide (j + 1 < n) &&
      (cs.getD i ' ' = '@') && (cs.getD j ' ' = '.') &&
      jsNonSpace (cs.getD (i - 1) ' ') &&
      ((List.range n).all fun k =>
        !(decide (i < k) && decide (k < j)) || jsNonSpace (cs.getD k ' ')) &&
      jsNonSpace (cs.getD (j + 1) ' ')

/-- Proleptic-Gregorian day count since the Unix epoch (1970-01-01) of the
civil date `y-m-d`, for years from 1 onward (all the dates exercised here
are in the 2000s). -/
def daysFromCivil (y m d : Nat) : Int :=
  let y1 := if m ≤ 2 then y - 1 else y
  let era := y1 / 400
  let yoe := y1 % 400
  let mp := (m + 9) % 12
  let doy := (153 * mp + 2) / 5 + (d - 1)
  let doe := yoe * 365 + yoe / 4 - yoe / 100 + doy
  (era * 146097 + doe : Int) - 719468

/-- Is `y` a Gregorian leap year? -/
def isLeapYear (y : Nat) : Bool :=
  (y % 4 = 0 && y % 100 ≠ 0) || y % 400 = 0

/-- Length of month `m` in year `y`. -/
def daysInMonth (y m : Nat) : Nat :=
  if m = 2 then (if isLeapYear y then 29 else 28)
  else if m = 4 || m = 6 || m = 9 || m = 11 then 30
  else 31

/-- ECMAScript `new Date(string).getTime()` restricted to the date-only ISO
form `YYYY-MM-DD` (parsed as UTC midnight, milliseconds since the epoch),
which is the format produced by the form's date input
(`setDefaultExpirationDate` formats dates this way).  Every other string —
in particular any non-date text — yields `none`, standing for an Invalid
Date (`NaN` timestamp), exactly as the browser does for such inputs. -/
def jsDateParse (s : String) : Option Int :=
  match s.data with
  | [y1, y2, y3, y4, '-', m1, m2, '-', d1, d2] =>
    if y1.isDigit && y2.isDigit && y3.isDigit && y4.isDigit &&
       m1.isDigit && m2.isDigit && d1.isDigit && d2.isDigit then
      let y := (y1.toNat - 48) * 1000 + (y2.toNat - 48) * 100 +
               (y3.toNat - 48) * 10 + (y4.toNat - 48)
      let m := (m1.toNat - 48) * 10 + (m2.toNat - 48)
      let d := (d1.toNat - 48) * 10 + (d2.toNat - 48)
      if 1 ≤ m && m ≤ 12 && 1 ≤ d && d ≤ daysInMonth y m then
        some (daysFromCivil y m d * 86400000)
      else none
    else none
  | _ => none

/-! ## Data model (`src/pages/ActivationKeys.tsx:47`) -/

/-- The `userDetails` sub-object of `CreateActivationKeyRequest`.  The
TypeScript interface marks `phone`, `facility` and `state` optional; the
form always initialises them to `''`, so they are embedded as plain
strings. -/
structure UserDetails where
  fullName : String
  email : String
  phone : String
  role : String
  facility : String
  state : String
deriving DecidableEq

/-- `CreateActivationKeyRequest` (`src/pages/ActivationKeys.tsx:47-58`). -/
structure CreateActivationKeyRequest where
  userDetails : UserDetails
  expiresAt : String
  notes : String
deriving DecidableEq

/-- The `errors.userDetails` sub-object built by `buildErrors`: one
optional message per checked field.  (`buildErrors` checks no other
`userDetails` field.) -/
structure UserDetailsErrors where
  fullName : Option String
  email : Option String
  role : Option String
deriving DecidableEq

/-- The `errors` object built by `buildErrors`: the `userDetails` key is
present exactly when at least one of its sub-errors was set (the source
creates it lazily with `if (!errors.userDetails) errors.userDetails = {}`),
and the `expiresAt` key is present exactly when the date check failed. -/
structure FormErrors where
  userDetails : Option UserDetailsErrors
  expiresAt : Option String
deriving DecidableEq

/-- The `{ errors, valid }` pair returned by `buildErrors`. -/
structure BuildResult where
  errors : FormErrors
  valid : Bool
deriving DecidableEq

/-! ## `buildErrors` (`src/pages/ActivationKeys.tsx:116-149`) -/

/-- `src/pages/ActivationKeys.tsx:119-122`: `'Full name is required'` iff
`!f.userDetails.fullName.trim()` (the empty string being the only falsy
string). -/
def fullNameErr (f : CreateActivationKeyRequest) : Option String :=
  if jsTrim f.userDetails.fullName = "" then some "Full name is required" else none

/-- `src/pages/ActivationKeys.tsx:124-130`: `'Email is required'` iff the
trimmed email is empty, else `'Email is invalid'` iff the (untrimmed) email
fails the `/\S+@\S+\.\S+/` test. -/
def emailErr (f : CreateActivationKeyRequest) : Option String :=
  if jsTrim f.userDetails.email = "" then some "Email is required"
  else if !emailRegexTest f.userDetails.email then some "Email is invalid"
  else none

/-- `src/pages/ActivationKeys.tsx:132-135`: `'Role is required'` iff
`!f.userDetails.role` — note: no trimming on this field. -/
def roleErr (f : CreateActivationKeyRequest) : Option String :=
  if f.userDetails.role = "" then some "Role is required" else none

/-- `src/pages/ActivationKeys.tsx:137-145`: `'Expiration date is required'`
iff `!f.expiresAt`; otherwise `new Date(f.expiresAt) <= new Date()` sets
`'Expiration date must be in the future'`.  `Date <= Date` compares the
millisecond values; when the date is Invalid (`parse` returns `none`, a
`NaN` timestamp) the comparison is false and no error is set. -/
def expiresAtErr (parse : String → Option Int) (now : Int)
    (f : CreateActivationKeyRequest) : Option String :=
  if f.expiresAt = "" then some "Expiration date is required"
  else
    match parse f.expiresAt with
    | none => none
    | some t => if t ≤ now then some "Expiration date must be in the future" else none

/-- The `errors` object assembled by `buildErrors`. -/
def formErrorsOf (parse : String → Option Int) (now : Int)
    (f : CreateActivationKeyRequest) : FormErrors :=
  { userDetails :=
      if (fullNameErr f).isSome || (emailErr f).isSome || (roleErr f).isSome then
        some { fullName := fullNameErr f, email := emailErr f, role := roleErr f }
      else none,
    expiresAt := expiresAtErr parse now f }

/-- `buildErrors` (`src/pages/ActivationKeys.tsx:116-149`).  `valid` is
`Object.keys(errors).length === 0`: no `userDetails` key and no
`expiresAt` key. -/
def buildErrors (parse : String → Option Int) (now : Int)
    (f : CreateActivationKeyRequest) : BuildResult :=
  { errors := formErrorsOf parse now f,
    valid := (formErrorsOf parse now f).userDetails.isNone &&
             (formErrorsOf parse now f).expiresAt.isNone }

/-! ## `maskKey` (`src/pages/ActivationKeys.tsx:1191-1195`) -/

/-- `maskKey`: `''` for a falsy key; a key of length at most 8 becomes
`'*'.repeat(length)`; a longer key becomes
`key.substring(0, 4) + '*'.repeat(length - 8) + key.substring(length - 4)`. -/
def maskKey (key : String) : String :=
  if key = "" then ""
  else if key.length ≤ 8 then String.mk (List.replicate key.length '*')
  else String.mk (key.data.take 4) ++
       String.mk (List.replicate (key.length - 8) '*') ++
       String.mk (key.data.drop (key.length - 4))

/-! ## Remote-call embedding (`src/services/api.ts`) -/

/-- The `error.response?.data` payload of a rejected axios call: the
server's error body, when one was received.  The api-service `catch`
branches read only its `error` field. -/
structure AxiosErrData where
  error : Option String
deriving DecidableEq

/-- A rejected axios promise (`catch (error)`): network-level failures
carry no response data (`responseData = none`); an HTTP-error response
carries the server body. -/
structure AxiosError where
  responseData : Option AxiosErrData
deriving DecidableEq

/-- Response body of `POST /admin/activation-keys` as read by the client:
`{success, error?, message?}` (the `data` payload with the created key is
not consulted by any claim and is omitted). -/
structure CreateResponse where
  success : Bool
  error : Option String
  message : Option String
deriving DecidableEq

/-- `apiService.createActivationKey` (`src/services/api.ts:485-509`): the
awaited response body is returned verbatim; a rejected call is caught and
normalized to `{success: false, error: error.response?.data?.error ||
'Failed to create activation key'}`.  The function is total: no outcome
escapes as an exception. -/
def createActivationKey (outcome : Except AxiosError CreateResponse) : CreateResponse :=
  match outcome with
  | .ok r => r
  | .error e =>
    { success := false,
      error := some (jsOr (e.responseData.bind AxiosErrData.error)
                          "Failed to create activation key"),
      message := none }

/-- Response body of `POST /admin/activation-keys/{id}/revoke`:
`{success, error?}`. -/
structure RevokeResponse where
  success : Bool
  error : Option String
deriving DecidableEq

/-- `apiService.revokeActivationKey` (`src/services/api.ts:511-522`): the
response body verbatim, or the caught rejection normalized to
`{success: false, error: error.response?.data?.error || 'Failed to revoke
activation key'}`. -/
def revokeActivationKey (outcome : Except AxiosError RevokeResponse) : RevokeResponse :=
  match outcome with
  | .ok r => r
  | .error e =>
    { success := false,
      error := some (jsOr (e.responseData.bind AxiosErrData.error)
                          "Failed to revoke activation key") }

/-- Pagination block of a listing response; the failure fallback sets only
`total`. -/
structure Pagination where
  total : Nat
deriving DecidableEq

/-- The `data` payload of `GET /admin/activation-keys`; `K` is the shape of
one backend key record (irrelevant to the failure-path claims). -/
structure KeysData (K : Type) where
  activationKeys : List K
  pagination : Pagination
deriving DecidableEq

/-- Response body of `GET /admin/activation-keys`. -/
structure KeysResponse (K : Type) where
  success : Bool
  error : Option String
  data : Option (KeysData K)
deriving DecidableEq

/-- The filter forwarded to the listing endpoint
(`{page?, limit?, status?, search?}`). -/
structure KeysFilter where
  page : Option Nat
  limit : Option Nat
  status : Option String
  search : Option String
deriving DecidableEq

/-- `apiService.getActivationKeys` (`src/services/api.ts:466-483`): the
response body verbatim; a rejected call is caught and replaced by
`{success: false, error: 'Failed to fetch activation keys', data:
{activationKeys: [], pagination: {total: 0}}}`.  The filter `params` only
shape the request (abstracted into `outcome`); the function always returns
a value — a fetch failure never escapes as an exception. -/
def getActivationKeys {K : Type} (params : KeysFilter)
    (outcome : Except AxiosError (KeysResponse K)) : KeysResponse K :=
  match params, outcome with
  | _, .ok r => r
  | _, .error _ =>
    { success := false,
      error := some "Failed to fetch activation keys",
      data := some { activationKeys := [], pagination := { total := 0 } } }

/-! ## UI handlers (`src/pages/ActivationKeys.tsx`) -/

/-- The snackbar severity values used by the page. -/
inductive Severity where
  | success
  | error
  | info
  | warning
deriving DecidableEq

/-- Observable outcome of `handleCreateKey`: whether the creation request
was dispatched, and the snackbar shown. -/
structure CreateOutcome where
  networkCall : Bool
  message : String
  severity : Severity
deriving DecidableEq

/-- `handleCreateKey` (`src/pages/ActivationKeys.tsx:255-317`): validates
via `buildErrors`; on invalid input warns without dispatching; otherwise
dispatches and reports `response.error || response.message || 'Unknown
error occurred'` on an unsuccessful response.  (The handler's own `catch`
is unreachable here because `createActivationKey` already catches every
rejection.) -/
def handleCreateKey (parse : String → Option Int) (now : Int)
    (f : CreateActivationKeyRequest)
    (remote : Except AxiosError CreateResponse) : CreateOutcome :=
  if !(buildErrors parse now f).valid then
    { networkCall := false,
      message := "Please fill in all required fields correctly.",
      severity := .warning }
  else
    let response := createActivationKey remote
    if response.success then
      { networkCall := true,
        message := "Activation key created successfully!",
        severity := .success }
    else
      { networkCall := true,
        message := "Failed to create key: " ++
          jsOr response.error (jsOr response.message "Unknown error occurred"),
        severity := .error }

/-- Observable outcome of `handleRevokeKey`: the dispatched revoke request
(key id and reason), if any, and the snackbar shown. -/
structure RevokeOutcome where
  networkCall : Option (String × Option String)
  message : String
  severity : Severity
deriving DecidableEq

/-- `handleRevokeKey` (`src/pages/ActivationKeys.tsx:320-356`): a falsy
(empty) `keyId` produces a local `'Invalid key ID'` error and returns
before any network call; otherwise the revoke request is dispatched and
the response reported (`` `Failed to revoke key: ${response.error}` ``
renders a missing message as `undefined`). -/
def handleRevokeKey (keyId : String) (reason : Option String)
    (remote : Except AxiosError RevokeResponse) : RevokeOutcome :=
  if keyId = "" then
    { networkCall := none, message := "Invalid key ID", severity := .error }
  else
    let response := revokeActivationKey remote
    if response.success then
      { networkCall := some (keyId, reason),
        message := "Activation key revoked successfully",
        severity := .success }
    else
      { networkCall := some (keyId, reason),
        message := "Failed to revoke key: " ++ jsUndef response.error,
        severity := .error }

/-! ## Request interceptor and admin login (`src/services/api.ts`) -/

/-- The request interceptor (`src/services/api.ts:20-41`), acting on the
request's header map (embedded as an association list of header name and
value).  URLs containing `/admin/` receive `x-admin-access: true` and
`x-admin-token: authToken || 'admin-access-token'`; other URLs receive
`Authorization: Bearer <token>` exactly when a (truthy) token is stored. -/
def requestInterceptor (authToken : Option String) (url : String)
    (headers : List (String × String)) : List (String × String) :=
  let h1 :=
    if strIncludes url "/admin/" then
      headers ++ [("x-admin-access", "true"),
                  ("x-admin-token", jsOr authToken "admin-access-token")]
    else headers
  if jsTruthy authToken && !strIncludes url "/admin/" then
    h1 ++ [("Authorization", "Bearer " ++ authToken.getD "")]
  else h1

/-- The mocked admin user object built by `adminLogin`. -/
structure AdminUser where
  id : String
  email : String
  firstName : String
  lastName : String
  role : String
  facility : String
  isActive : Bool
deriving DecidableEq

/-- The `data` payload of a successful `adminLogin`. -/
structure AdminLoginData where
  user : AdminUser
  token : String
  expiresIn : String
deriving DecidableEq

/-- The result object of `adminLogin`. -/
structure AdminLoginResponse where
  success : Bool
  data : Option AdminLoginData
  error : Option String
  code : Option String
deriving DecidableEq

/-- `apiService.adminLogin` (`src/services/api.ts:339-369`): succeeds iff
the email contains `'admin'` or `'nso'`; the password is never read and no
request is sent.  On success a mock token `'mock-admin-token-' + Date.now()`
is minted and stored (returned here as the second component, modelling the
`setAuthToken` side effect); on failure the stored token is untouched
(`none` here). -/
def adminLogin (email _password : String) (nowMs : Nat) :
    AdminLoginResponse × Option String :=
  if strIncludes email "admin" || strIncludes email "nso" then
    let mockToken := "mock-admin-token-" ++ toString nowMs
    ({ success := true,
       data := some
         { user := { id := "admin-1", email := email, firstName := "Admin",
                     lastName := "User", role := "admin",
                     facility := "NSO Headquarters", isActive := true },
           token := mockToken, expiresIn := "24h" },
       error := none, code := none },
     some mockToken)
  else
    ({ success := false, data := none,
       error := some "Invalid admin credentials",
       code := some "INVALID_CREDENTIALS" },
     none)

/-! ## Concrete fixtures used by witnesses and counterexamples -/

/-- A creation request that fills every form field (the end-to-end fixture
of the spec's scenario, with a short email so closed goals evaluate
quickly). -/
def sampleRequest : CreateActivationKeyRequest :=
  { userDetails := { fullName := "Jane Doe", email := "a@b.c",
                     phone := "+2348000000000", role := "nurse",
                     facility := "General Hospital", state := "Lagos" },
    expiresAt := "2030-01-01", notes := "" }

/-- `sampleRequest` with empty `facility` and `state`. -/
def claim1Request : CreateActivationKeyRequest :=
  { sampleRequest with
    userDetails := { sampleRequest.userDetails with facility := "", state := "" } }

/-- `sampleRequest` with a non-date `expiresAt` string. -/
def claim2Request : CreateActivationKeyRequest :=
  { sampleRequest with expiresAt := "not-a-date" }

/-! ## Helper lemmas -/

/-- The lazily-created `errors.userDetails` object reports exactly the
`fullName` check's result. -/
lemma formErrorsOf_fullName (parse : String → Option Int) (now : Int)
    (f : CreateActivationKeyRequest) :
    ((formErrorsOf parse now f).userDetails.bind UserDetailsErrors.fullName) =
      fullNameErr f := by
  unfold formErrorsOf
  dsimp only
  split
  · rfl
  · rename_i h
    cases hf : fullNameErr f with
    | none => rfl
    | some v => exact absurd (by simp [hf]) h

/-- The lazily-created `errors.userDetails` object reports exactly the
email checks' result. -/
lemma formErrorsOf_email (parse : String → Option Int) (now : Int)
    (f : CreateActivationKeyRequest) :
    ((formErrorsOf parse now f).userDetails.bind UserDetailsErrors.email) =
      emailErr f := by
  unfold formErrorsOf
  dsimp only
  split
  · rfl
  · rename_i h
    cases hf : emailErr f with
    | none => rfl
    | some v => exact absurd (by simp [hf]) h

/-- The lazily-created `errors.userDetails` object reports exactly the
`role` check's result. -/
lemma formErrorsOf_role (parse : String → Option Int) (now : Int)
    (f : CreateActivationKeyRequest) :
    ((formErrorsOf parse now f).userDetails.bind UserDetailsErrors.role) =
      roleErr f := by
  unfold formErrorsOf
  dsimp only
  split
  · rfl
  · rename_i h
    cases hf : roleErr f with
    | none => rfl
    | some v => exact absurd (by simp [hf]) h

/-! ## Claims -/

/-- **C1 (amended).** `buildErrors` validates only `fullName`, `email` and
`role` among the user-detail fields: changing `phone`, `facility` or
`state` never changes the result (first conjunct), and the three checked
fields are each characterised independently of the others — so all failing
checked fields are reported simultaneously: `fullName` gets its required
error exactly when empty after trimming, `role` exactly when empty (without
trimming), and `email` gets the required error exactly when empty after
trimming. -/
theorem claim1_required_fields (parse : String → Option Int) (now : Int)
    (f : CreateActivationKeyRequest) (x y z : String) :
    buildErrors parse now
        { f with userDetails :=
            { f.userDetails with phone := z, facility := x, state := y } } =
      buildErrors parse now f ∧
    ((buildErrors parse now f).errors.userDetails.bind UserDetailsErrors.fullName) =
      (if jsTrim f.userDetails.fullName = "" then some "Full name is required" else none) ∧
    ((buildErrors parse now f).errors.userDetails.bind UserDetailsErrors.role) =
      (if f.userDetails.role = "" then some "Role is required" else none) ∧
    (((buildErrors parse now f).errors.userDetails.bind UserDetailsErrors.email) =
        some "Email is required" ↔ jsTrim f.userDetails.email = "") := by
  refine ⟨rfl, formErrorsOf_fullName parse now f, formErrorsOf_role parse now f, ?_⟩
  rw [show (buildErrors parse now f).errors = formErrorsOf parse now f from rfl,
      formErrorsOf_email parse now f]
  unfold emailErr
  split
  · rename_i h
    simp [h]
  · rename_i h
    constructor
    · intro hcontr
      split at hcontr
      · simp_all
      · simp_all
    · intro hempty
      exact absurd hempty h

/-- **C1 counterexample.** The claim demands a field-specific required
error for each of the six fields `fullName`, `email`, `role`, `facility`,
`state`, `contactInfo` that is empty after trimming.  `claim1Request` has
empty `facility` and `state` (and the code has no `contactInfo` field at
all), yet `buildErrors` returns an empty error map and declares the request
valid. -/
theorem claim1_counterexample :
    claim1Request.userDetails.facility = "" ∧
    claim1Request.userDetails.state = "" ∧
    (buildErrors jsDateParse 0 claim1Request).errors =
      { userDetails := none, expiresAt := none } ∧
    (buildErrors jsDateParse 0 claim1Request).valid = true := by
  refine ⟨rfl, rfl, ?_, ?_⟩ <;> decide

/-- **C2 (amended).** The `expiresAt` check: a missing (empty) `expiresAt`
yields `'Expiration date is required'`; when `expiresAt` is present and
parses to a timestamp `t`, the check passes exactly when `t` is strictly
greater than `now` (otherwise `'Expiration date must be in the future'`);
but when `expiresAt` is present and does **not** parse (an Invalid Date,
`NaN` timestamp), the check also passes, because the JavaScript comparison
`NaN <= now` is false; the two messages are distinct. -/
theorem claim2_expiry_check (parse : String → Option Int) (now : Int)
    (f : CreateActivationKeyRequest) :
    (f.expiresAt = "" →
      (buildErrors parse now f).errors.expiresAt = some "Expiration date is required") ∧
    (∀ t : Int, f.expiresAt ≠ "" → parse f.expiresAt = some t →
      ((buildErrors parse now f).errors.expiresAt = none ↔ now < t)) ∧
    (∀ t : Int, f.expiresAt ≠ "" → parse f.expiresAt = some t → t ≤ now →
      (buildErrors parse now f).errors.expiresAt =
        some "Expiration date must be in the future") ∧
    (f.expiresAt ≠ "" → parse f.expiresAt = none →
      (buildErrors parse now f).errors.expiresAt = none) ∧
    "Expiration date is required" ≠ "Expiration date must be in the future" := by
  have hrepr : (buildErrors parse now f).errors.expiresAt = expiresAtErr parse now f := rfl
  refine ⟨?_, ?_, ?_, ?_, by decide⟩
  · intro he
    rw [hrepr]
    unfold expiresAtErr
    simp [he]
  · intro t he hp
    rw [hrepr]
    unfold expiresAtErr
    rw [if_neg he, hp]
    dsimp only
    by_cases hle : t ≤ now
    · rw [if_pos hle]
      exact iff_of_false (by simp) (by omega)
    · rw [if_neg hle]
      exact iff_of_true rfl (by omega)
  · intro t he hp hle
    rw [hrepr]
    unfold expiresAtErr
    simp only [if_neg he, hp]
    simp [hle]
  · intro he hp
    rw [hrepr]
    unfold expiresAtErr
    simp [if_neg he, hp]

/-- **C2 witness.** With the clock fixed in 2025, a request expiring
2030-01-01 passes the date check, and a request with `expiresAt` missing
gets the required-error message. -/
theorem claim2_expiry_check_witness :
    (buildErrors jsDateParse 1760000000000 sampleRequest).errors.expiresAt = none ∧
    (buildErrors jsDateParse 1760000000000
        { sampleRequest with expiresAt := "" }).errors.expiresAt =
      some "Expiration date is required" := by
  constructor
  · exact ((claim2_expiry_check jsDateParse 1760000000000 sampleRequest).2.1
      1893456000000 (by decide) (by decide)).mpr (by decide)
  · exact (claim2_expiry_check jsDateParse 1760000000000
      { sampleRequest with expiresAt := "" }).1 rfl

/-- **C2 counterexample.** The claim says the date check is accepted
*exactly when* `expiresAt` parses to a timestamp strictly greater than
now.  `claim2Request.expiresAt = "not-a-date"` is present but does not
parse at all (`new Date('not-a-date')` is an Invalid Date), yet the date
check is accepted and the whole request is declared valid. -/
theorem claim2_counterexample :
    claim2Request.expiresAt = "not-a-date" ∧
    jsDateParse claim2Request.expiresAt = none ∧
    (buildErrors jsDateParse 1760000000000 claim2Request).errors.expiresAt = none ∧
    (buildErrors jsDateParse 1760000000000 claim2Request).valid = true := by
  refine ⟨rfl, rfl, ?_, ?_⟩ <;> decide

/-- **C3 (confirmed).** `buildErrors` reports `'Email is invalid'` exactly
when the email is non-empty after trimming but fails the
`/\S+@\S+\.\S+/` (local-part, `@`, domain-with-dot) test, reports
`'Email is required'` exactly when the email is empty after trimming, and
the two messages are distinct. -/
theorem claim3_email_format (parse : String → Option Int) (now : Int)
    (f : CreateActivationKeyRequest) :
    (((buildErrors parse now f).errors.userDetails.bind UserDetailsErrors.email) =
        some "Email is invalid" ↔
      (jsTrim f.userDetails.email ≠ "" ∧
       emailRegexTest f.userDetails.email = false)) ∧
    (((buildErrors parse now f).errors.userDetails.bind UserDetailsErrors.email) =
        some "Email is required" ↔ jsTrim f.userDetails.email = "") ∧
    "Email is invalid" ≠ "Email is required" := by
  have hrepr : ((buildErrors parse now f).errors.userDetails.bind UserDetailsErrors.email) =
      emailErr f := formErrorsOf_email parse now f
  refine ⟨?_, ?_, by decide⟩
  · rw [hrepr]
    unfold emailErr
    split
    · rename_i h
      simp [h]
    · rename_i h
      split
      · rename_i hre
        simp_all
      · rename_i hre
        simp_all
  · rw [hrepr]
    unfold emailErr
    split
    · rename_i h
      simp [h]
    · rename_i h
      split
      · simp_all
      · simp_all

/-- **C8 (confirmed).** `buildErrors` is deterministic and referentially
transparent given a fixed clock: two calls on the same request with the
same `now` produce identical error maps and identical validity verdicts.
(In this embedding `buildErrors` is a pure function of the request, the
clock and the date-parsing environment — the source reads no other state
and performs no network access.) -/
theorem claim8_validate_deterministic (parse : String → Option Int) (now : Int)
    (f g : CreateActivationKeyRequest) (h : f = g) :
    buildErrors parse now f = buildErrors parse now g ∧
    (buildErrors parse now f).errors = (buildErrors parse now g).errors ∧
    (buildErrors parse now f).valid = (buildErrors parse now g).valid := by
  subst h
  exact ⟨rfl, rfl, rfl⟩

/-- **C8 witness.** Two validations of the sample request at the same
fixed clock agree. -/
theorem claim8_validate_deterministic_witness :
    buildErrors jsDateParse 1760000000000 sampleRequest =
      buildErrors jsDateParse 1760000000000 sampleRequest ∧
    (buildErrors jsDateParse 1760000000000 sampleRequest).errors =
      (buildErrors jsDateParse 1760000000000 sampleRequest).errors ∧
    (buildErrors jsDateParse 1760000000000 sampleRequest).valid =
      (buildErrors jsDateParse 1760000000000 sampleRequest).valid :=
  claim8_validate_deterministic jsDateParse 1760000000000 sampleRequest sampleRequest rfl

/-- Asterisk runs contribute nothing to the non-asterisk characters of a
masked key. -/
lemma filter_replicate_star (n : Nat) :
    (List.replicate n '*').filter (fun c => c != '*') = [] := by
  induction n with
  | zero => rfl
  | succ k ih => simp [List.replicate_succ, List.filter_cons, ih]

/-- **C9 (confirmed).** `maskKey` preserves length; a key of length at most
8 is replaced entirely by asterisks; a longer key reveals exactly its first
4 and last 4 characters with every character in between replaced by an
asterisk; and in every case at most 8 non-asterisk characters appear in the
masked form. -/
theorem claim9_maskKey_shape (key : String) :
    (maskKey key).length = key.length ∧
    (key.length ≤ 8 → maskKey key = String.mk (List.replicate key.length '*')) ∧
    (8 < key.length → (maskKey key).data =
      key.data.take 4 ++ List.replicate (key.length - 8) '*' ++
        key.data.drop (key.length - 4)) ∧
    ((maskKey key).data.filter (fun c => c != '*')).length ≤ 8 := by
  by_cases h0 : key = ""
  · subst h0
    exact ⟨by decide, fun _ => by decide, fun h => absurd h (by decide), by decide⟩
  · by_cases h8 : key.length ≤ 8
    · have hmask : maskKey key = String.mk (List.replicate key.length '*') := by
        unfold maskKey
        rw [if_neg h0, if_pos h8]
      refine ⟨?_, fun _ => hmask, fun h => absurd h (by omega), ?_⟩
      · rw [hmask]
        show (List.replicate key.length '*').length = key.length
        simp
      · rw [hmask]
        show ((List.replicate key.length '*').filter (fun c => c != '*')).length ≤ 8
        rw [filter_replicate_star]
        simp
    · push_neg at h8
      have hmask : maskKey key =
          String.mk (key.data.take 4) ++
          String.mk (List.replicate (key.length - 8) '*') ++
          String.mk (key.data.drop (key.length - 4)) := by
        unfold maskKey
        rw [if_neg h0, if_neg (by omega)]
      have hdata : (maskKey key).data =
          key.data.take 4 ++ List.replicate (key.length - 8) '*' ++
            key.data.drop (key.length - 4) := by
        rw [hmask]
        rfl
      have hklen : key.data.length = key.length := rfl
      refine ⟨?_, fun h => absurd h (by omega), fun _ => hdata, ?_⟩
      · show (maskKey key).data.length = key.length
        rw [hdata]
        simp only [List.length_append, List.length_take, List.length_replicate,
          List.length_drop, hklen]
        omega
      · rw [show ((maskKey key).data.filter (fun c => c != '*')) =
            ((key.data.take 4 ++ List.replicate (key.length - 8) '*' ++
              key.data.drop (key.length - 4)).filter (fun c => c != '*')) from by
            rw [hdata]]
        rw [List.filter_append, List.filter_append, filter_replicate_star]
        have t1 : ((key.data.take 4).filter (fun c => c != '*')).length ≤ 4 :=
          le_trans (List.length_filter_le _ _) (by simp)
        have t2 : ((key.data.drop (key.length - 4)).filter (fun c => c != '*')).length ≤ 4 :=
          le_trans (List.length_filter_le _ _) (by simp [List.length_drop, hklen]; omega)
        simp only [List.length_append, List.length_nil]
        omega

/-- **C9 witness.** The 23-character fixture key from the repository's own
tests reveals exactly `NSO-` and `DEF0` around 15 asterisks. -/
theorem claim9_maskKey_shape_witness :
    (maskKey "NSO-1234-5678-9ABC-DEF0").data =
      "NSO-1234-5678-9ABC-DEF0".data.take 4 ++
      List.replicate ("NSO-1234-5678-9ABC-DEF0".length - 8) '*' ++
      "NSO-1234-5678-9ABC-DEF0".data.drop ("NSO-1234-5678-9ABC-DEF0".length - 4) :=
  (claim9_maskKey_shape "NSO-1234-5678-9ABC-DEF0").2.2.1 (by decide)

/-- **C4 (confirmed).** `handleRevokeKey` with an empty (falsy) `keyId`
fails immediately with the local `'Invalid key ID'` error and dispatches no
network call; with any non-empty `keyId` the revoke request is dispatched
to the remote API carrying that id and the reason. -/
theorem claim4_revoke_empty_id (keyId : String) (reason : Option String)
    (remote : Except AxiosError RevokeResponse) (h : keyId ≠ "") :
    (handleRevokeKey "" reason remote).networkCall = none ∧
    (handleRevokeKey "" reason remote).message = "Invalid key ID" ∧
    (handleRevokeKey "" reason remote).severity = Severity.error ∧
    (handleRevokeKey keyId reason remote).networkCall = some (keyId, reason) := by
  refine ⟨rfl, rfl, rfl, ?_⟩
  unfold handleRevokeKey
  rw [if_neg h]
  dsimp only
  split <;> rfl

/-- **C4 witness.** Revoking with the empty id stays local; revoking key
`abc123` dispatches the request. -/
theorem claim4_revoke_empty_id_witness :
    (handleRevokeKey "" (some "compromised")
        (.ok { success := true, error := none })).networkCall = none ∧
    (handleRevokeKey "" (some "compromised")
        (.ok { success := true, error := none })).message = "Invalid key ID" ∧
    (handleRevokeKey "" (some "compromised")
        (.ok { success := true, error := none })).severity = Severity.error ∧
    (handleRevokeKey "abc123" (some "compromised")
        (.ok { success := true, error := none })).networkCall =
      some ("abc123", some "compromised") :=
  claim4_revoke_empty_id "abc123" (some "compromised")
    (.ok { success := true, error := none }) (by decide)

/-- **C5 (confirmed).** For every filter, when the remote listing call
fails (the promise rejects, for any error), `getActivationKeys` resolves —
by construction it is a total function, so no exception propagates — to the
fixed empty-result shape: an empty page of keys and a total count of
zero. -/
theorem claim5_list_degrades {K : Type} (params : KeysFilter) (e : AxiosError) :
    getActivationKeys (K := K) params (.error e) =
      { success := false,
        error := some "Failed to fetch activation keys",
        data := some { activationKeys := [], pagination := { total := 0 } } } :=
  rfl

/-- **C6 (amended).** `createActivationKey` never lets a failure escape as
an exception: a rejected call (network failure or HTTP error response) is
normalized to `{success: false, error: ...}`, carrying the server body's
error message verbatim when a non-empty one is present and the generic
`'Failed to create activation key'` fallback otherwise — the same result
shape as a server-side in-band rejection.  An in-band response body
(including one signalling failure) is, however, returned verbatim: the
fallback message is *not* substituted when a 2xx body with
`success: false` supplies no message. -/
theorem claim6_create_error_normalization (e : AxiosError) (r : CreateResponse)
    (m : String) :
    (e.responseData.bind AxiosErrData.error = some m → m ≠ "" →
      createActivationKey (.error e) =
        { success := false, error := some m, message := none }) ∧
    (e.responseData.bind AxiosErrData.error = some "" →
      createActivationKey (.error e) =
        { success := false, error := some "Failed to create activation key",
          message := none }) ∧
    (e.responseData.bind AxiosErrData.error = none →
      createActivationKey (.error e) =
        { success := false, error := some "Failed to create activation key",
          message := none }) ∧
    createActivationKey (.ok r) = r := by
  refine ⟨?_, ?_, ?_, rfl⟩
  · intro hm hne
    simp [createActivationKey, jsOr, hm, hne]
  · intro hm
    simp [createActivationKey, jsOr, hm]
  · intro hm
    simp [createActivationKey, jsOr, hm]

/-- **C6 witness.** A pure network failure (no server response body) is
normalized to the generic fallback message. -/
theorem claim6_create_error_normalization_witness :
    createActivationKey (.error { responseData := none }) =
      { success := false, error := some "Failed to create activation key",
        message := none } :=
  (claim6_create_error_normalization { responseData := none }
    { success := true, error := none, message := none } "x").2.2.1 rfl

/-- **C6 counterexample.** The claim says every failure result carries the
server message or else the `'failed to create activation key'` fallback.
But a server responding in-band with `{success: false}` and no message is
passed through verbatim — the result's `error` is absent, not the fallback
— and the caller `handleCreateKey` then surfaces `'Unknown error occurred'`
instead of the claimed fallback. -/
theorem claim6_counterexample :
    createActivationKey (.ok { success := false, error := none, message := none }) =
      { success := false, error := none, message := none } ∧
    (handleCreateKey jsDateParse 0 sampleRequest
        (.ok { success := false, error := none, message := none })).message =
      "Failed to create key: Unknown error occurred" := by
  exact ⟨rfl, by decide⟩

/-- **C7 (amended).** The shared request interceptor does *not* attach an
Authorization bearer header to every request: a request whose URL contains
`/admin/` (in particular the admin activation-key endpoints) instead
receives `x-admin-access: true` and `x-admin-token` (the stored token, or
the fallback `'admin-access-token'` when none is stored); only requests to
non-admin URLs get `Authorization: Bearer <token>`, and only when a
non-empty token is stored — otherwise their headers are left untouched. -/
theorem claim7_header_attachment (tok : Option String) (url : String)
    (hs : List (String × String)) :
    (strIncludes url "/admin/" = true →
      requestInterceptor tok url hs =
        hs ++ [("x-admin-access", "true"),
               ("x-admin-token", jsOr tok "admin-access-token")]) ∧
    (strIncludes url "/admin/" = false → jsTruthy tok = true →
      requestInterceptor tok url hs =
        hs ++ [("Authorization", "Bearer " ++ tok.getD "")]) ∧
    (strIncludes url "/admin/" = false → jsTruthy tok = false →
      requestInterceptor tok url hs = hs) := by
  refine ⟨?_, ?_, ?_⟩
  · intro h
    simp [requestInterceptor, h]
  · intro h ht
    simp [requestInterceptor, h, ht]
  · intro h ht
    simp [requestInterceptor, h, ht]

/-- **C7 witness.** An admin-route request gets the admin headers appended
to its existing ones; a non-admin request with a stored token gets the
bearer header. -/
theorem claim7_header_attachment_witness :
    requestInterceptor (some "tok0") "/admin/users"
        [("Content-Type", "application/json")] =
      [("Content-Type", "application/json"), ("x-admin-access", "true"),
       ("x-admin-token", "tok0")] ∧
    requestInterceptor (some "tok0") "/auth/verify" [] =
      [("Authorization", "Bearer tok0")] := by
  constructor
  · exact ((claim7_header_attachment (some "tok0") "/admin/users"
      [("Content-Type", "application/json")]).1 (by decide)).trans (by decide)
  · exact ((claim7_header_attachment (some "tok0") "/auth/verify" []).2.1
      (by decide) (by decide)).trans (by decide)

/-- **C7 counterexample.** With a token stored, a request to the admin
activation-key endpoint carries no Authorization header at all — only the
`x-admin-access`/`x-admin-token` pair — refuting the claim that the bearer
token is attached to every request. -/
theorem claim7_counterexample :
    requestInterceptor (some "stored-token") "/admin/activation-keys" [] =
      [("x-admin-access", "true"), ("x-admin-token", "stored-token")] ∧
    ((requestInterceptor (some "stored-token") "/admin/activation-keys" []).all
        (fun p => p.1 != "Authorization")) = true := by
  exact ⟨by decide, by decide⟩

/-- **C10 (confirmed).** `adminLogin` succeeds exactly when the supplied
email contains the substring `'admin'` or `'nso'`, independently of the
password (and of the clock): any two calls with the same email agree on
success/failure.  The embedding is a pure function of its arguments — the
source reads no state besides `Date.now()` and dispatches no network
request to verify the credentials. -/
theorem claim10_adminLogin_password_independent (email p1 p2 : String)
    (n1 n2 : Nat) :
    (adminLogin email p1 n1).1.success = (adminLogin email p2 n2).1.success ∧
    ((adminLogin email p1 n1).1.success = true ↔
      (strIncludes email "admin" = true ∨ strIncludes email "nso" = true)) := by
  unfold adminLogin
  by_cases h : (strIncludes email "admin" || strIncludes email "nso") = true
  · rw [if_pos h, if_pos h]
    exact ⟨rfl, iff_of_true rfl (by simpa [Bool.or_eq_true] using h)⟩
  · rw [if_neg h, if_neg h]
    exact ⟨rfl, iff_of_false (by simp) (by simpa [Bool.or_eq_true] using h)⟩

end NSOAdmin
